import Mathlib

/-!
Verification of the `cache-express` in-memory response cache
(`src/index.js`): the `hashString` key deriver, the `MemoryCache` store
with TTL expiry and dependency-based invalidation, and the expiry-timer
protocol. The JavaScript code is shallowly embedded: the process-wide
mutable store becomes an explicit `MemoryCache` state record threaded
through the operations, `Date.now()` becomes an explicit `now : Nat`
argument, and `setTimeout`/`clearInterval` become an explicit list of
pending one-shot timers together with a `fireTimer` transition that
models the runtime invoking a scheduled callback.
-/

namespace CacheExpress

/-- JavaScript values as far as the cache needs them: dependency-snapshot
arrays and cached payloads. Functions are modelled by an identity token
(`jfunc`), since the cache only ever passes them to `JSON.stringify`,
which serializes any function the same way. Numbers are modelled as
integers (the cache performs no arithmetic on dependency values). -/
inductive JSValue where
  | jundef : JSValue
  | jnull : JSValue
  | jbool (b : Bool) : JSValue
  | jnum (n : Int) : JSValue
  | jstr (s : String) : JSValue
  | jarr (elems : List JSValue) : JSValue
  | jfunc (id : Nat) : JSValue
deriving Repr

/-- JavaScript truthiness of a value, as used by `if (cachedResponse)`,
`if (!dependencies)`, `if (callback)` in `src/index.js`. -/
def jsTruthy : JSValue → Bool
  | .jundef => false
  | .jnull => false
  | .jbool b => b
  | .jnum n => n != 0
  | .jstr s => s != ""
  | .jarr _ => true
  | .jfunc _ => true

/-- JSON string escaping for one character (model of the escaping
performed by the `JSON.stringify` builtin on string contents). -/
def jsonEscapeChar (c : Char) : String :=
  if c = '"' then "\\\""
  else if c = '\\' then "\\\\"
  else if c = '\n' then "\\n"
  else if c = '\t' then "\\t"
  else if c = '\r' then "\\r"
  else String.singleton c

/-- JSON quoting of a string literal, as produced by `JSON.stringify`. -/
def jsonQuote (s : String) : String :=
  "\"" ++ String.join (s.data.map jsonEscapeChar) ++ "\""

mutual
/-- Model of the `JSON.stringify` builtin on the embedded value domain:
`none` models the JavaScript result `undefined` (for a top-level
function or `undefined`); inside arrays such elements serialize as
`"null"`, exactly as `JSON.stringify` does. -/
def stringifyVal : JSValue → Option String
  | .jundef => none
  | .jfunc _ => none
  | .jnull => some "null"
  | .jbool b => some (if b then "true" else "false")
  | .jnum n => some (toString n)
  | .jstr s => some (jsonQuote s)
  | .jarr xs => some ("[" ++ String.intercalate "," (stringifyElems xs) ++ "]")

/-- Serialization of the elements of a JSON array: an element whose
serialization is `undefined` contributes the text `null`. -/
def stringifyElems : List JSValue → List String
  | [] => []
  | v :: vs => (stringifyVal v).getD "null" :: stringifyElems vs
end

mutual
/-- Modelled from the spec: "deep value equality (order-sensitive,
structural)" over dependency snapshots — the comparison the spec's words
describe, kept separate from the source's serialize-and-compare
(`stringifyVal`-equality) so the two can be compared. Distinct function
objects are unequal (reference identity). -/
def deepValueEq : JSValue → JSValue → Bool
  | .jundef, .jundef => true
  | .jnull, .jnull => true
  | .jbool a, .jbool b => a == b
  | .jnum a, .jnum b => a == b
  | .jstr a, .jstr b => a == b
  | .jarr xs, .jarr ys => deepValueEqList xs ys
  | .jfunc a, .jfunc b => a == b
  | _, _ => false

/-- Elementwise deep value equality of two sequences, order-sensitive. -/
def deepValueEqList : List JSValue → List JSValue → Bool
  | [], [] => true
  | x :: xs, y :: ys => deepValueEq x y && deepValueEqList xs ys
  | _, _ => false
end

/-- Truncation to a 32-bit signed integer: the JavaScript `| 0`
operation (ToInt32). -/
def toInt32 (n : Int) : Int :=
  (n + 2147483648) % 4294967296 - 2147483648

/-- One iteration of the `hashString` loop in `src/index.js`:
`hash = ((hash << 5) - hash + charCode) | 0`. The shift `hash << 5`
itself truncates its result to 32 bits (JavaScript `<<` is an Int32
operation), and the trailing `| 0` truncates the sum. -/
def hashStep (hash : Int) (charCode : Nat) : Int :=
  toInt32 (toInt32 (hash * 32) - hash + charCode)

/-- The function `hashString` from `src/index.js`, on the sequence of UTF-16 code
units (`charCodeAt` values) of the input string: fold `hashStep` from 0,
then return `hash + 2147483647 + 1`. -/
def hashString (codes : List Nat) : Int :=
  (codes.foldl hashStep 0) + 2147483647 + 1

/-- Modelled from the spec: the KeyDeriver contract of §4.1 — iterate
`hash = hash*31 + charCode` with 32-bit wraparound, then shift into the
non-negative range by adding 2^31. Stated separately from `hashString`
(the source) so the refinement between the two can be proved. -/
def specKeyDeriver (codes : List Nat) : Int :=
  (codes.foldl (fun h c => toInt32 (h * 31 + c)) 0) + 2147483648

/-- A cache entry, one per key: the object stored in `this.cache[key]`.
Fields absent in a branch of the source (`expireTime`, `timeoutMs`,
`timer` in the no-TTL branch) are modelled as `none`. The `timer` field
holds the id of the scheduled one-shot timeout, when one was created. -/
structure Entry where
  value : JSValue
  expireTime : Option Nat
  dependencies : JSValue
  timeoutMs : Option Int
  timer : Option Nat
deriving Repr

/-- A pending one-shot timer created by `setTimeout` in
`MemoryCache.set`: its handle id, the key its callback closure captured,
and the absolute time it is scheduled to fire (`now + timeoutMs`). -/
structure Timer where
  id : Nat
  key : String
  fireAt : Nat
deriving Repr, DecidableEq

/-- The `MemoryCache` state: the `cache` and `dependencies` objects of
the JavaScript class (string-keyed maps, `none` meaning the property is
absent), plus the set of pending timers and a fresh-handle counter
modelling the runtime's timer table. -/
structure MemoryCache where
  cache : String → Option Entry
  dependencies : String → Option JSValue
  timers : List Timer
  nextId : Nat

/-- Point update of a string-keyed map; `none` models `delete obj[key]`. -/
def updKey {α : Type} (m : String → Option α) (k : String) (v : Option α) :
    String → Option α :=
  fun k2 => if k2 = k then v else m k2

/-- The state of a fresh `new MemoryCache()`: both objects empty, no
pending timers. -/
def emptyCache : MemoryCache :=
  { cache := fun _ => none, dependencies := fun _ => none, timers := [], nextId := 0 }

namespace MemoryCache

/-- Model of `clearInterval(handle)`: deschedule the pending timer with the given
handle. (Node accepts a `setTimeout` handle in `clearInterval`.) -/
def clearTimer (s : MemoryCache) (tid : Nat) : MemoryCache :=
  { s with timers := s.timers.filter (fun t => t.id != tid) }

/-- Method `dependenciesChanged(key, depArrayValues)` from `src/index.js`:
returns `false` when `this.dependencies[key]` is absent or falsy;
otherwise compares `JSON.stringify` of the stored and supplied values,
and on inequality records the supplied value as the new snapshot and
returns `true`. Returns the flag together with the (possibly updated)
state. -/
def dependenciesChanged (s : MemoryCache) (key : String) (depArrayValues : JSValue) :
    Bool × MemoryCache :=
  match s.dependencies key with
  | none => (false, s)
  | some deps =>
    if jsTruthy deps = false then (false, s)
    else if stringifyVal deps = stringifyVal depArrayValues then (false, s)
    else (true, { s with dependencies := updKey s.dependencies key (some depArrayValues) })

/-- The test `!item.expireTime || item.expireTime > Date.now()` from
`MemoryCache.get`: an absent (or zero, hence falsy) `expireTime` means
no time-based expiry. -/
def expireOk : Option Nat → Nat → Bool
  | none, _ => true
  | some exp, now => exp == 0 || decide (now < exp)

/-- Method `MemoryCache.get(key, depArrayValues)`: returns the JavaScript value
the method returns (`null` on a miss) together with the updated state.
If the dependency check reports a change, the entry's pending timer (if
any) is cleared and the entry deleted; otherwise a valid entry's value
is returned and an expired or missing entry is deleted. `now` is the
value of `Date.now()` at the call. -/
def get (s : MemoryCache) (key : String) (depArrayValues : JSValue) (now : Nat) :
    JSValue × MemoryCache :=
  let item := s.cache key
  let res := dependenciesChanged s key depArrayValues
  let s1 := res.2
  if res.1 then
    let s2 :=
      match item with
      | some e =>
        match e.timer with
        | some tid => clearTimer s1 tid
        | none => s1
      | none => s1
    (.jnull, { s2 with cache := updKey s2.cache key none })
  else
    match item with
    | some e =>
      if expireOk e.expireTime now then (e.value, s1)
      else (.jnull, { s1 with cache := updKey s1.cache key none })
    | none => (.jnull, { s1 with cache := updKey s1.cache key none })

/-- Method `MemoryCache.set(key, value, timeoutMs, callback, dependencies)`.
`timeoutMs = none` models an absent argument; the guard is the source's
`if (timeoutMs && timeoutMs > 0)`. `hasCallback` is the truthiness of
the `callback` argument: when true (and the TTL is active) a one-shot
timer for `timeoutMs` from `now` is scheduled and its handle stored on
the entry. In all cases the supplied `dependencies` value is recorded in
`this.dependencies[key]`. The previous entry for the key — and in
particular its pending timer — is not touched beyond being overwritten. -/
def set (s : MemoryCache) (key : String) (value : JSValue) (timeoutMs : Option Int)
    (hasCallback : Bool) (dependencies : JSValue) (now : Nat) : MemoryCache :=
  let s1 :=
    match timeoutMs with
    | some t =>
      if 0 < t then
        let expireTime := now + t.toNat
        if hasCallback then
          { s with
            cache := updKey s.cache key (some
              { value := value, expireTime := some expireTime,
                dependencies := dependencies, timeoutMs := some t,
                timer := some s.nextId }),
            timers := s.timers ++ [({ id := s.nextId, key := key, fireAt := expireTime } : Timer)],
            nextId := s.nextId + 1 }
        else
          { s with
            cache := updKey s.cache key (some
              { value := value, expireTime := some expireTime,
                dependencies := dependencies, timeoutMs := some t,
                timer := none }) }
      else
        { s with
          cache := updKey s.cache key (some
            { value := value, expireTime := none, dependencies := dependencies,
              timeoutMs := none, timer := none }) }
    | none =>
      { s with
        cache := updKey s.cache key (some
          { value := value, expireTime := none, dependencies := dependencies,
            timeoutMs := none, timer := none }) }
  { s1 with dependencies := updKey s1.dependencies key (some dependencies) }

/-- Method `MemoryCache.remove(key)`: delete both the entry and the
dependency-table record. The source does not clear a pending timer here. -/
def remove (s : MemoryCache) (key : String) : MemoryCache :=
  { s with
    cache := updKey s.cache key none,
    dependencies := updKey s.dependencies key none }

/-- Method `MemoryCache.has(key)`: the raw existence probe `key in this.cache`. -/
def has (s : MemoryCache) (key : String) : Bool :=
  (s.cache key).isSome

/-- The runtime firing a pending one-shot timer: the timer is consumed,
and the scheduled callback closure from `MemoryCache.set` runs — it
checks `this.cache[key]` for the key it captured, and if an entry is
present it invokes `callback(key, this.cache[key].value)` and deletes
the entry. The returned event records the invoked callback's scheduling
(by timer id) and its arguments; `none` means the callback body did
nothing observable. -/
def fireTimer (s : MemoryCache) (tmr : Timer) :
    Option (Nat × String × JSValue) × MemoryCache :=
  let s0 := s.clearTimer tmr.id
  match s.cache tmr.key with
  | some e => (some (tmr.id, tmr.key, e.value), { s0 with cache := updKey s0.cache tmr.key none })
  | none => (none, s0)

end MemoryCache

/-- The middleware's hit test (`if (cachedResponse)` in `expressCache`):
a response is served from cache exactly when the value returned by
`cache.get` is truthy. -/
def servedFromCache (s : MemoryCache) (key : String) (dep : JSValue) (now : Nat) : Bool :=
  jsTruthy (MemoryCache.get s key dep now).1

end CacheExpress

namespace CacheExpress

/-! ### Helper lemmas -/

theorem updKey_same {α : Type} (m : String → Option α) (k : String) (v : Option α) :
    updKey m k v k = v := by
  simp [updKey]

theorem updKey_other {α : Type} (m : String → Option α) (k k2 : String) (v : Option α)
    (h : k2 ≠ k) : updKey m k v k2 = m k2 := by
  simp [updKey, h]

theorem toInt32_congr (a b : Int) (h : (4294967296 : Int) ∣ (a - b)) :
    toInt32 a = toInt32 b := by
  unfold toInt32
  omega

theorem toInt32_dvd_sub_self (a : Int) : (4294967296 : Int) ∣ (toInt32 a - a) := by
  unfold toInt32
  omega

theorem toInt32_lb (a : Int) : -2147483648 ≤ toInt32 a := by
  unfold toInt32
  omega

theorem toInt32_ub (a : Int) : toInt32 a < 2147483648 := by
  unfold toInt32
  omega

theorem hashStep_eq_spec (h : Int) (c : Nat) :
    hashStep h c = toInt32 (h * 31 + c) := by
  unfold hashStep
  apply toInt32_congr
  have := toInt32_dvd_sub_self (h * 32)
  omega

theorem foldl_hashStep_eq_spec (codes : List Nat) (h : Int) :
    codes.foldl hashStep h = codes.foldl (fun a c => toInt32 (a * 31 + c)) h := by
  induction codes generalizing h with
  | nil => rfl
  | cons c cs ih =>
    simp only [List.foldl_cons, hashStep_eq_spec]
    exact ih _

theorem foldl_hashStep_lb (codes : List Nat) (h : Int) (hh : -2147483648 ≤ h) :
    -2147483648 ≤ codes.foldl hashStep h := by
  induction codes generalizing h with
  | nil => exact hh
  | cons c cs ih =>
    simp only [List.foldl_cons]
    exact ih _ (toInt32_lb _)

/-- C5: `hashString` computes exactly the spec's KeyDeriver — the fold of
`hash = hash*31 + charCode` under 32-bit signed wraparound, shifted by
2^31 — and its result is non-negative for every input code sequence,
the empty one included. Determinism is inherent: the embedding is a pure
function of the code-unit sequence. -/
theorem hashString_matches_spec (codes : List Nat) :
    hashString codes = specKeyDeriver codes ∧ 0 ≤ hashString codes := by
  constructor
  · unfold hashString specKeyDeriver
    rw [foldl_hashStep_eq_spec]
    omega
  · unfold hashString
    have := foldl_hashStep_lb codes 0 (by omega)
    omega

end CacheExpress

namespace CacheExpress

theorem dependenciesChanged_same (s : MemoryCache) (k : String) (dep : JSValue)
    (h : s.dependencies k = some dep) :
    MemoryCache.dependenciesChanged s k dep = (false, s) := by
  simp [MemoryCache.dependenciesChanged, h]

theorem dependenciesChanged_of_none (s : MemoryCache) (k : String) (dep : JSValue)
    (h : s.dependencies k = none) :
    MemoryCache.dependenciesChanged s k dep = (false, s) := by
  simp [MemoryCache.dependenciesChanged, h]

theorem get_of_valid (s : MemoryCache) (k : String) (dep : JSValue) (now : Nat)
    (e : Entry) (hc : s.cache k = some e)
    (hd : MemoryCache.dependenciesChanged s k dep = (false, s))
    (he : MemoryCache.expireOk e.expireTime now = true) :
    MemoryCache.get s k dep now = (e.value, s) := by
  simp [MemoryCache.get, hc, hd, he]

theorem get_of_expired (s : MemoryCache) (k : String) (dep : JSValue) (now : Nat)
    (e : Entry) (hc : s.cache k = some e)
    (hd : MemoryCache.dependenciesChanged s k dep = (false, s))
    (he : MemoryCache.expireOk e.expireTime now = false) :
    MemoryCache.get s k dep now = (.jnull, { s with cache := updKey s.cache k none }) := by
  simp [MemoryCache.get, hc, hd, he]

theorem set_cache_self (s : MemoryCache) (k : String) (v : JSValue) (t : Int)
    (hcb : Bool) (dep : JSValue) (n : Nat) (ht : 0 < t) :
    (MemoryCache.set s k v (some t) hcb dep n).cache k = some
      { value := v, expireTime := some (n + t.toNat), dependencies := dep,
        timeoutMs := some t, timer := if hcb then some s.nextId else none } := by
  cases hcb <;> simp [MemoryCache.set, ht, updKey]

theorem set_cache_self_nottl (s : MemoryCache) (k : String) (v : JSValue)
    (timeoutMs : Option Int) (hcb : Bool) (dep : JSValue) (n : Nat)
    (ht : ∀ t, timeoutMs = some t → t ≤ 0) :
    (MemoryCache.set s k v timeoutMs hcb dep n).cache k = some
      { value := v, expireTime := none, dependencies := dep,
        timeoutMs := none, timer := none } := by
  rcases timeoutMs with _ | t
  · simp [MemoryCache.set, updKey]
  · have h := ht t rfl
    have h2 : ¬ (0 < t) := by omega
    simp [MemoryCache.set, h2, updKey]

theorem set_dependencies_self (s : MemoryCache) (k : String) (v : JSValue)
    (timeoutMs : Option Int) (hcb : Bool) (dep : JSValue) (n : Nat) :
    (MemoryCache.set s k v timeoutMs hcb dep n).dependencies k = some dep := by
  rcases timeoutMs with _ | t
  · simp [MemoryCache.set, updKey]
  · by_cases ht : 0 < t <;> cases hcb <;> simp [MemoryCache.set, ht, updKey]

theorem set_timers_nottl (s : MemoryCache) (k : String) (v : JSValue)
    (timeoutMs : Option Int) (hcb : Bool) (dep : JSValue) (n : Nat)
    (ht : ∀ t, timeoutMs = some t → t ≤ 0) :
    (MemoryCache.set s k v timeoutMs hcb dep n).timers = s.timers := by
  rcases timeoutMs with _ | t
  · simp [MemoryCache.set]
  · have h := ht t rfl
    have h2 : ¬ (0 < t) := by omega
    simp [MemoryCache.set, h2]

theorem set_timers_callback (s : MemoryCache) (k : String) (v : JSValue) (t : Int)
    (dep : JSValue) (n : Nat) (ht : 0 < t) :
    (MemoryCache.set s k v (some t) true dep n).timers =
      s.timers ++ [{ id := s.nextId, key := k, fireAt := n + t.toNat }] := by
  simp [MemoryCache.set, ht]

end CacheExpress

namespace CacheExpress

/-- C2: after `set(key, value, ttl = T)` with `T > 0` at time `n` and an
unchanged dependency snapshot, `get` returns the value at any time
strictly before the expiry instant `n + T`, and returns the miss value
(`null`) at any time from the expiry instant on, after which `has` is
false; likewise `has` is false after the scheduled expiry timer fires,
and when a callback was supplied that timer is indeed pending. -/
theorem ttl_write_read_expiry (s : MemoryCache) (k : String) (v dep : JSValue)
    (T : Int) (hcb : Bool) (n t : Nat) (hT : 0 < T) :
    ((t < n + T.toNat →
        (MemoryCache.get (MemoryCache.set s k v (some T) hcb dep n) k dep t).1 = v) ∧
     (n + T.toNat ≤ t →
        (MemoryCache.get (MemoryCache.set s k v (some T) hcb dep n) k dep t).1 =
          JSValue.jnull ∧
        MemoryCache.has
          (MemoryCache.get (MemoryCache.set s k v (some T) hcb dep n) k dep t).2 k =
          false) ∧
     MemoryCache.has
       (MemoryCache.fireTimer (MemoryCache.set s k v (some T) hcb dep n)
         { id := s.nextId, key := k, fireAt := n + T.toNat }).2 k = false ∧
     (hcb = true →
        ({ id := s.nextId, key := k, fireAt := n + T.toNat } : Timer) ∈
          (MemoryCache.set s k v (some T) hcb dep n).timers)) := by
  have hc := set_cache_self s k v T hcb dep n hT
  have hd := dependenciesChanged_same (MemoryCache.set s k v (some T) hcb dep n) k dep
    (set_dependencies_self s k v (some T) hcb dep n)
  have hexp : n + T.toNat ≠ 0 := by omega
  refine ⟨?_, ?_, ?_, ?_⟩
  · intro hlt
    have he : MemoryCache.expireOk (some (n + T.toNat)) t = true := by
      simp [MemoryCache.expireOk, hlt]
    rw [get_of_valid _ _ _ _ _ hc hd he]
  · intro hge
    have he : MemoryCache.expireOk (some (n + T.toNat)) t = false := by
      simp [MemoryCache.expireOk, hexp]
      omega
    rw [get_of_expired _ _ _ _ _ hc hd he]
    simp [MemoryCache.has, updKey]
  · simp only [MemoryCache.fireTimer, hc]
    simp [MemoryCache.has, updKey]
  · intro hcbt
    subst hcbt
    rw [set_timers_callback s k v T dep n hT]
    simp

/-- Witness for C2 at a concrete input: key `"k"`, value `"x"`,
`T = 10`, written at time 0, read at time 9 (hit side). -/
theorem ttl_write_read_expiry_witness :
    ((0 : Int) < 10) ∧
    ((9 < 0 + (10 : Int).toNat →
        (MemoryCache.get (MemoryCache.set emptyCache "k" (.jstr "x") (some 10) true
          (.jarr [.jnum 1]) 0) "k" (.jarr [.jnum 1]) 9).1 = .jstr "x") ∧
     (0 + (10 : Int).toNat ≤ 9 →
        (MemoryCache.get (MemoryCache.set emptyCache "k" (.jstr "x") (some 10) true
          (.jarr [.jnum 1]) 0) "k" (.jarr [.jnum 1]) 9).1 = JSValue.jnull ∧
        MemoryCache.has
          (MemoryCache.get (MemoryCache.set emptyCache "k" (.jstr "x") (some 10) true
            (.jarr [.jnum 1]) 0) "k" (.jarr [.jnum 1]) 9).2 "k" = false) ∧
     MemoryCache.has
       (MemoryCache.fireTimer (MemoryCache.set emptyCache "k" (.jstr "x") (some 10) true
         (.jarr [.jnum 1]) 0)
         { id := emptyCache.nextId, key := "k", fireAt := 0 + (10 : Int).toNat }).2 "k" =
       false ∧
     (true = true →
        ({ id := emptyCache.nextId, key := "k", fireAt := 0 + (10 : Int).toNat } : Timer) ∈
          (MemoryCache.set emptyCache "k" (.jstr "x") (some 10) true
            (.jarr [.jnum 1]) 0).timers)) :=
  ⟨by decide,
   ttl_write_read_expiry emptyCache "k" (.jstr "x") (.jarr [.jnum 1]) 10 true 0 9
     (by decide)⟩

end CacheExpress

namespace CacheExpress

theorem dependenciesChanged_of_false (s : MemoryCache) (k : String) (dep : JSValue)
    (h : (MemoryCache.dependenciesChanged s k dep).1 = false) :
    MemoryCache.dependenciesChanged s k dep = (false, s) := by
  unfold MemoryCache.dependenciesChanged at *
  rcases hdep : s.dependencies k with _ | d
  · simp [hdep]
  · simp only [hdep] at h ⊢
    by_cases hj : jsTruthy d = false
    · simp [hj]
    · simp only [hj, if_false] at h ⊢
      by_cases hs : stringifyVal d = stringifyVal dep
      · simp [hs]
      · simp [hs] at h

theorem get_of_absent (s : MemoryCache) (k : String) (dep : JSValue) (now : Nat)
    (hc : s.cache k = none)
    (hd : MemoryCache.dependenciesChanged s k dep = (false, s)) :
    MemoryCache.get s k dep now = (.jnull, { s with cache := updKey s.cache k none }) := by
  simp [MemoryCache.get, hc, hd]

/-- C8: a write with `timeoutMs` absent or non-positive stores an entry
with no expiry timestamp and no timer handle, schedules nothing, and a
`get` with the same dependency snapshot returns the value at every later
time, leaving the state untouched — the entry lives until explicitly
removed or dependency-invalidated. -/
theorem nottl_write_lives_indefinitely (s : MemoryCache) (k : String) (v dep : JSValue)
    (timeoutMs : Option Int) (hcb : Bool) (n : Nat)
    (ht : ∀ u, timeoutMs = some u → u ≤ 0) :
    ((MemoryCache.set s k v timeoutMs hcb dep n).cache k = some
       { value := v, expireTime := none, dependencies := dep,
         timeoutMs := none, timer := none } ∧
     (MemoryCache.set s k v timeoutMs hcb dep n).timers = s.timers ∧
     ∀ t : Nat,
       MemoryCache.get (MemoryCache.set s k v timeoutMs hcb dep n) k dep t =
         (v, MemoryCache.set s k v timeoutMs hcb dep n)) := by
  have hc := set_cache_self_nottl s k v timeoutMs hcb dep n ht
  refine ⟨hc, set_timers_nottl s k v timeoutMs hcb dep n ht, fun t => ?_⟩
  have hd := dependenciesChanged_same (MemoryCache.set s k v timeoutMs hcb dep n) k dep
    (set_dependencies_self s k v timeoutMs hcb dep n)
  have he : MemoryCache.expireOk (none : Option Nat) t = true := rfl
  exact get_of_valid _ _ _ _ _ hc hd he

/-- Witness for C8 at a concrete input: `timeoutMs = 0` (falsy), so the
no-TTL branch of `set` runs. -/
theorem nottl_write_lives_indefinitely_witness :
    (∀ u : Int, (some (0 : Int)) = some u → u ≤ 0) ∧
    ((MemoryCache.set emptyCache "p" (.jnum 7) (some 0) true (.jarr []) 4).cache "p" = some
       { value := .jnum 7, expireTime := none, dependencies := .jarr [],
         timeoutMs := none, timer := none } ∧
     (MemoryCache.set emptyCache "p" (.jnum 7) (some 0) true (.jarr []) 4).timers =
       emptyCache.timers ∧
     ∀ t : Nat,
       MemoryCache.get (MemoryCache.set emptyCache "p" (.jnum 7) (some 0) true
         (.jarr []) 4) "p" (.jarr []) t =
         (.jnum 7, MemoryCache.set emptyCache "p" (.jnum 7) (some 0) true (.jarr []) 4)) :=
  ⟨fun u hu => by simp at hu; omega,
   nottl_write_lives_indefinitely emptyCache "p" (.jnum 7) (.jarr []) (some 0) true 4
     (fun u hu => by simp at hu; omega)⟩

/-- C9: a `get` on a valid (unexpired, dependency-unchanged) entry
returns its value and leaves the state exactly as it was, so a second
consecutive `get` returns the identical value and performs no state
change beyond the first. -/
theorem get_idempotent_on_valid (s : MemoryCache) (k : String) (dep : JSValue)
    (now : Nat) (e : Entry) (hc : s.cache k = some e)
    (hd : (MemoryCache.dependenciesChanged s k dep).1 = false)
    (he : MemoryCache.expireOk e.expireTime now = true) :
    MemoryCache.get s k dep now = (e.value, s) ∧
    MemoryCache.get (MemoryCache.get s k dep now).2 k dep now = (e.value, s) := by
  have hd2 := dependenciesChanged_of_false s k dep hd
  have h1 := get_of_valid s k dep now e hc hd2 he
  exact ⟨h1, by rw [h1]; exact h1⟩

/-- Witness for C9 at a concrete input: an entry with no expiry, read
twice with the snapshot it was written with. -/
theorem get_idempotent_on_valid_witness :
    ((MemoryCache.set emptyCache "q" (.jstr "y") none false (.jarr [.jnum 2]) 0).cache "q" =
       some { value := .jstr "y", expireTime := none, dependencies := .jarr [.jnum 2],
              timeoutMs := none, timer := none }) ∧
    ((MemoryCache.dependenciesChanged
        (MemoryCache.set emptyCache "q" (.jstr "y") none false (.jarr [.jnum 2]) 0)
        "q" (.jarr [.jnum 2])).1 = false) ∧
    (MemoryCache.expireOk (none : Option Nat) 3 = true) ∧
    (MemoryCache.get (MemoryCache.set emptyCache "q" (.jstr "y") none false
        (.jarr [.jnum 2]) 0) "q" (.jarr [.jnum 2]) 3 =
      (.jstr "y", MemoryCache.set emptyCache "q" (.jstr "y") none false (.jarr [.jnum 2]) 0) ∧
     MemoryCache.get
       (MemoryCache.get (MemoryCache.set emptyCache "q" (.jstr "y") none false
         (.jarr [.jnum 2]) 0) "q" (.jarr [.jnum 2]) 3).2 "q" (.jarr [.jnum 2]) 3 =
      (.jstr "y", MemoryCache.set emptyCache "q" (.jstr "y") none false (.jarr [.jnum 2]) 0)) :=
  ⟨by rfl, by rfl, by rfl,
   get_idempotent_on_valid
     (MemoryCache.set emptyCache "q" (.jstr "y") none false (.jarr [.jnum 2]) 0)
     "q" (.jarr [.jnum 2]) 3
     { value := .jstr "y", expireTime := none, dependencies := .jarr [.jnum 2],
       timeoutMs := none, timer := none }
     (by rfl) (by rfl) (by rfl)⟩

end CacheExpress

namespace CacheExpress

theorem dependenciesChanged_of_diff (s : MemoryCache) (k : String) (d dep : JSValue)
    (hdep : s.dependencies k = some d) (hj : jsTruthy d = true)
    (hs : stringifyVal d ≠ stringifyVal dep) :
    MemoryCache.dependenciesChanged s k dep =
      (true, { s with dependencies := updKey s.dependencies k (some dep) }) := by
  simp [MemoryCache.dependenciesChanged, hdep, hj, hs]

theorem get_of_changed (s : MemoryCache) (k : String) (d dep : JSValue) (now : Nat)
    (hdep : s.dependencies k = some d) (hj : jsTruthy d = true)
    (hs : stringifyVal d ≠ stringifyVal dep) :
    (MemoryCache.get s k dep now).1 = .jnull ∧
    (MemoryCache.get s k dep now).2.cache k = none ∧
    (MemoryCache.get s k dep now).2.dependencies k = some dep ∧
    (∀ e : Entry, s.cache k = some e → ∀ tid : Nat, e.timer = some tid →
       ∀ tmr ∈ (MemoryCache.get s k dep now).2.timers, tmr.id ≠ tid) := by
  have hdc := dependenciesChanged_of_diff s k d dep hdep hj hs
  rcases hcache : s.cache k with _ | e
  · refine ⟨?_, ?_, ?_, ?_⟩
    · simp [MemoryCache.get, hcache, hdc]
    · simp [MemoryCache.get, hcache, hdc, updKey]
    · simp [MemoryCache.get, hcache, hdc, updKey]
    · intro e he
      exact absurd he (by simp)
  · rcases htimer : e.timer with _ | tid0
    · refine ⟨?_, ?_, ?_, ?_⟩
      · simp [MemoryCache.get, hcache, hdc, htimer]
      · simp [MemoryCache.get, hcache, hdc, htimer, updKey]
      · simp [MemoryCache.get, hcache, hdc, htimer, updKey]
      · intro e2 he2 tid htid
        obtain rfl : e = e2 := Option.some.inj he2
        rw [htimer] at htid
        exact absurd htid (by simp)
    · refine ⟨?_, ?_, ?_, ?_⟩
      · simp [MemoryCache.get, hcache, hdc, htimer]
      · simp [MemoryCache.get, hcache, hdc, htimer, updKey]
      · simp [MemoryCache.get, hcache, hdc, htimer, MemoryCache.clearTimer, updKey]
      · intro e2 he2 tid htid tmr hmem
        obtain rfl : e = e2 := Option.some.inj he2
        obtain rfl : tid0 = tid := Option.some.inj (htimer.symm.trans htid)
        simp only [MemoryCache.get, hcache, hdc, htimer,
          MemoryCache.clearTimer] at hmem
        simp at hmem
        exact hmem.2

end CacheExpress

namespace CacheExpress

theorem get_dependencies_eq (s : MemoryCache) (k : String) (dep : JSValue) (now : Nat) :
    (MemoryCache.get s k dep now).2.dependencies =
      (MemoryCache.dependenciesChanged s k dep).2.dependencies := by
  unfold MemoryCache.get
  rcases hdc : MemoryCache.dependenciesChanged s k dep with ⟨b, s1⟩
  cases b
  · rcases hc : s.cache k with _ | e
    · simp [hdc, hc]
    · by_cases he : MemoryCache.expireOk e.expireTime now <;> simp [hdc, hc, he]
  · rcases hc : s.cache k with _ | e
    · simp [hdc, hc]
    · rcases ht : e.timer with _ | tid <;>
        simp [hdc, hc, ht, MemoryCache.clearTimer]

theorem dependenciesChanged_dependencies_isSome (s : MemoryCache) (k : String)
    (dep : JSValue) (k2 : String) (h : (s.dependencies k2).isSome = true) :
    (((MemoryCache.dependenciesChanged s k dep).2).dependencies k2).isSome = true := by
  unfold MemoryCache.dependenciesChanged
  rcases hdep : s.dependencies k with _ | d
  · simpa [hdep] using h
  · by_cases hj : jsTruthy d = false
    · simpa [hdep, hj] using h
    · by_cases hs : stringifyVal d = stringifyVal dep
      · simpa [hdep, hj, hs] using h
      · simp only [hdep, hj, hs]
        simp only [if_false, if_neg hs]
        by_cases hk : k2 = k <;> simp [updKey, hk, h]

theorem set_dependencies_eq (s : MemoryCache) (k : String) (v : JSValue)
    (timeoutMs : Option Int) (hcb : Bool) (dep : JSValue) (n : Nat) :
    (MemoryCache.set s k v timeoutMs hcb dep n).dependencies =
      updKey s.dependencies k (some dep) := by
  rcases timeoutMs with _ | t
  · simp [MemoryCache.set]
  · by_cases ht : 0 < t <;> cases hcb <;> simp [MemoryCache.set, ht]

theorem fireTimer_dependencies_eq (s : MemoryCache) (tmr : Timer) :
    (MemoryCache.fireTimer s tmr).2.dependencies = s.dependencies := by
  unfold MemoryCache.fireTimer
  rcases hc : s.cache tmr.key with _ | e <;> simp [hc, MemoryCache.clearTimer]

/-- C6: lifecycle of the dependency-table record of a key. It is written
(created or updated) by every `set`; a `get` that detects a dependency
change updates it to the supplied snapshot; `remove` deletes it; a `get`
whose dependency check reports no change leaves the whole table
untouched (in particular a TTL-expiry eviction does not remove it), a
timer firing never touches the table, and no `get` or `set` ever deletes
an established record — only `remove` does. -/
theorem dependency_record_lifecycle (s : MemoryCache) (k k2 : String)
    (v d dep : JSValue) (timeoutMs : Option Int) (hcb : Bool) (n now : Nat)
    (tmr : Timer) :
    ((MemoryCache.set s k v timeoutMs hcb dep n).dependencies k = some dep) ∧
    (s.dependencies k = some d → jsTruthy d = true →
      stringifyVal d ≠ stringifyVal dep →
      (MemoryCache.get s k dep now).2.dependencies k = some dep) ∧
    ((MemoryCache.remove s k).dependencies k = none) ∧
    ((MemoryCache.dependenciesChanged s k dep).1 = false →
      (MemoryCache.get s k dep now).2.dependencies = s.dependencies) ∧
    ((MemoryCache.fireTimer s tmr).2.dependencies = s.dependencies) ∧
    ((s.dependencies k2).isSome = true →
      ((MemoryCache.get s k dep now).2.dependencies k2).isSome = true) ∧
    ((s.dependencies k2).isSome = true →
      ((MemoryCache.set s k v timeoutMs hcb dep n).dependencies k2).isSome = true) := by
  refine ⟨set_dependencies_self s k v timeoutMs hcb dep n, ?_, ?_, ?_,
    fireTimer_dependencies_eq s tmr, ?_, ?_⟩
  · intro hdep hj hs
    exact (get_of_changed s k d dep now hdep hj hs).2.2.1
  · simp [MemoryCache.remove, updKey]
  · intro h
    rw [get_dependencies_eq, dependenciesChanged_of_false s k dep h]
  · intro h
    rw [get_dependencies_eq]
    exact dependenciesChanged_dependencies_isSome s k dep k2 h
  · intro h
    rw [set_dependencies_eq]
    by_cases hk : k2 = k <;> simp [updKey, hk, h]

/-- Witness for C6 at a concrete input: a state holding a record for
`"w"`, probed with a differing snapshot. -/
theorem dependency_record_lifecycle_witness :
    ((MemoryCache.set (MemoryCache.set emptyCache "w" (.jnum 1) none false
        (.jarr [.jnum 1]) 0) "w" (.jnum 2) none false (.jarr [.jnum 2]) 1).dependencies
        "w" = some (.jarr [.jnum 2])) ∧
    ((MemoryCache.set emptyCache "w" (.jnum 1) none false (.jarr [.jnum 1]) 0).dependencies
        "w" = some (.jarr [.jnum 1]) → jsTruthy (.jarr [.jnum 1]) = true →
      stringifyVal (.jarr [.jnum 1]) ≠ stringifyVal (.jarr [.jnum 2]) →
      (MemoryCache.get (MemoryCache.set emptyCache "w" (.jnum 1) none false
          (.jarr [.jnum 1]) 0) "w" (.jarr [.jnum 2]) 3).2.dependencies "w" =
        some (.jarr [.jnum 2])) ∧
    ((MemoryCache.remove (MemoryCache.set emptyCache "w" (.jnum 1) none false
        (.jarr [.jnum 1]) 0) "w").dependencies "w" = none) ∧
    ((MemoryCache.dependenciesChanged (MemoryCache.set emptyCache "w" (.jnum 1) none false
        (.jarr [.jnum 1]) 0) "w" (.jarr [.jnum 2])).1 = false →
      (MemoryCache.get (MemoryCache.set emptyCache "w" (.jnum 1) none false
          (.jarr [.jnum 1]) 0) "w" (.jarr [.jnum 2]) 3).2.dependencies =
        (MemoryCache.set emptyCache "w" (.jnum 1) none false
          (.jarr [.jnum 1]) 0).dependencies) ∧
    ((MemoryCache.fireTimer (MemoryCache.set emptyCache "w" (.jnum 1) none false
        (.jarr [.jnum 1]) 0) { id := 9, key := "w", fireAt := 2 }).2.dependencies =
      (MemoryCache.set emptyCache "w" (.jnum 1) none false (.jarr [.jnum 1]) 0).dependencies) ∧
    (((MemoryCache.set emptyCache "w" (.jnum 1) none false
        (.jarr [.jnum 1]) 0).dependencies "w").isSome = true →
      ((MemoryCache.get (MemoryCache.set emptyCache "w" (.jnum 1) none false
          (.jarr [.jnum 1]) 0) "w" (.jarr [.jnum 2]) 3).2.dependencies "w").isSome = true) ∧
    (((MemoryCache.set emptyCache "w" (.jnum 1) none false
        (.jarr [.jnum 1]) 0).dependencies "w").isSome = true →
      ((MemoryCache.set (MemoryCache.set emptyCache "w" (.jnum 1) none false
          (.jarr [.jnum 1]) 0) "w" (.jnum 2) none false
          (.jarr [.jnum 2]) 1).dependencies "w").isSome = true) :=
  dependency_record_lifecycle
    (MemoryCache.set emptyCache "w" (.jnum 1) none false (.jarr [.jnum 1]) 0)
    "w" "w" (.jnum 2) (.jarr [.jnum 1]) (.jarr [.jnum 2]) none false 1 3
    { id := 9, key := "w", fireAt := 2 }

end CacheExpress

namespace CacheExpress

/-- C10: a stored entry whose value is `null` itself — or any falsy
value, at the middleware layer — is returned by `get` in exactly the
representation `get` uses for a miss (`null`), so a caller cannot tell a
cached `null` from an absent entry through `get` alone, and the
middleware's truthiness gate treats such a hit as a miss; yet `has`
still reports the entry as existing. -/
theorem falsy_hit_indistinguishable_from_miss (s : MemoryCache) (k : String)
    (dep : JSValue) (now : Nat) (e : Entry) (hc : s.cache k = some e)
    (hd : (MemoryCache.dependenciesChanged s k dep).1 = false)
    (he : MemoryCache.expireOk e.expireTime now = true) :
    ((MemoryCache.get s k dep now).1 = e.value) ∧
    (e.value = .jnull →
      ∀ s2 : MemoryCache, s2.cache k = none →
        (MemoryCache.dependenciesChanged s2 k dep).1 = false →
        (MemoryCache.get s k dep now).1 = (MemoryCache.get s2 k dep now).1) ∧
    (jsTruthy e.value = false → servedFromCache s k dep now = false) ∧
    MemoryCache.has s k = true := by
  have hd2 := dependenciesChanged_of_false s k dep hd
  have h1 := get_of_valid s k dep now e hc hd2 he
  refine ⟨by rw [h1], ?_, ?_, by simp [MemoryCache.has, hc]⟩
  · intro hv s2 hc2 hd3
    rw [h1, get_of_absent s2 k dep now hc2 (dependenciesChanged_of_false s2 k dep hd3)]
    simpa using hv
  · intro hv
    unfold servedFromCache
    rw [h1]
    exact hv

/-- Witness for C10 at a concrete input: an entry storing `null`,
probed against the empty cache as the miss side. -/
theorem falsy_hit_indistinguishable_from_miss_witness :
    ((MemoryCache.set emptyCache "r" .jnull none false (.jarr []) 0).cache "r" = some
       (⟨.jnull, none, .jarr [], none, none⟩ : Entry)) ∧
    ((MemoryCache.dependenciesChanged (MemoryCache.set emptyCache "r" .jnull none false
        (.jarr []) 0) "r" (.jarr [])).1 = false) ∧
    (MemoryCache.expireOk (none : Option Nat) 2 = true) ∧
    (((MemoryCache.get (MemoryCache.set emptyCache "r" .jnull none false (.jarr []) 0)
        "r" (.jarr []) 2).1 = (⟨.jnull, none, .jarr [], none, none⟩ : Entry).value) ∧
     ((⟨.jnull, none, .jarr [], none, none⟩ : Entry).value = .jnull →
       ∀ s2 : MemoryCache, s2.cache "r" = none →
         (MemoryCache.dependenciesChanged s2 "r" (.jarr [])).1 = false →
         (MemoryCache.get (MemoryCache.set emptyCache "r" .jnull none false (.jarr []) 0)
           "r" (.jarr []) 2).1 = (MemoryCache.get s2 "r" (.jarr []) 2).1) ∧
     (jsTruthy (⟨.jnull, none, .jarr [], none, none⟩ : Entry).value = false →
       servedFromCache (MemoryCache.set emptyCache "r" .jnull none false (.jarr []) 0)
         "r" (.jarr []) 2 = false) ∧
     MemoryCache.has (MemoryCache.set emptyCache "r" .jnull none false (.jarr []) 0)
       "r" = true) :=
  ⟨by rfl, by rfl, by rfl,
   falsy_hit_indistinguishable_from_miss
     (MemoryCache.set emptyCache "r" .jnull none false (.jarr []) 0) "r" (.jarr []) 2
     (⟨.jnull, none, .jarr [], none, none⟩ : Entry)
     (by rfl) (by rfl) (by rfl)⟩

end CacheExpress

namespace CacheExpress

/-- C3 counterexample: the stored snapshot `[f]` and the supplied
snapshot `[g]` (two distinct function objects) differ under deep,
order-sensitive value equality, the entry's TTL has not elapsed (it has
none), yet `get` does not invalidate: it returns the cached value and
the entry survives — because `JSON.stringify` serializes both snapshots
to `"[null]"`. -/
theorem dep_invalidation_deep_eq_counterexample :
    deepValueEq (.jarr [.jfunc 1]) (.jarr [.jfunc 2]) = false ∧
    stringifyVal (.jarr [.jfunc 1]) = stringifyVal (.jarr [.jfunc 2]) ∧
    (MemoryCache.get (MemoryCache.set emptyCache "k3" (.jstr "v") none false
        (.jarr [.jfunc 1]) 0) "k3" (.jarr [.jfunc 2]) 5).1 = .jstr "v" ∧
    MemoryCache.has
      (MemoryCache.get (MemoryCache.set emptyCache "k3" (.jstr "v") none false
        (.jarr [.jfunc 1]) 0) "k3" (.jarr [.jfunc 2]) 5).2 "k3" = true := by
  exact ⟨by rfl, by rfl, by rfl, by rfl⟩

/-- C3 (amended): for every key with a stored dependency snapshot,
calling `get` with a snapshot whose JSON serialization differs from the
stored one (as it does for any two serializable snapshots that differ in
value) records the supplied snapshot as the new current one, cancels any
pending expiry timer of the entry, deletes the entry, and returns the
miss value even though no TTL has elapsed; a subsequent `set` with the
new snapshot followed by an immediate `get` with that same snapshot
returns the newly written value. -/
theorem dep_invalidation_on_serialization_diff (s : MemoryCache) (k : String)
    (d dep v2 : JSValue) (now : Nat)
    (hdep : s.dependencies k = some d) (hj : jsTruthy d = true)
    (hs : stringifyVal d ≠ stringifyVal dep) :
    (MemoryCache.get s k dep now).1 = .jnull ∧
    (MemoryCache.get s k dep now).2.cache k = none ∧
    (MemoryCache.get s k dep now).2.dependencies k = some dep ∧
    (∀ e : Entry, s.cache k = some e → ∀ tid : Nat, e.timer = some tid →
       ∀ tmr ∈ (MemoryCache.get s k dep now).2.timers, tmr.id ≠ tid) ∧
    (∀ (timeoutMs2 : Option Int) (hcb2 : Bool) (n2 : Nat),
       (MemoryCache.get
          (MemoryCache.set (MemoryCache.get s k dep now).2 k v2 timeoutMs2 hcb2 dep n2)
          k dep n2).1 = v2) := by
  obtain ⟨h1, h2, h3, h4⟩ := get_of_changed s k d dep now hdep hj hs
  refine ⟨h1, h2, h3, h4, ?_⟩
  intro tm2 hcb2 n2
  have hdeps := set_dependencies_self (MemoryCache.get s k dep now).2 k v2 tm2 hcb2 dep n2
  have hd2 := dependenciesChanged_same _ k dep hdeps
  rcases tm2 with _ | T
  · rw [get_of_valid _ _ _ _ _
      (set_cache_self_nottl _ k v2 none hcb2 dep n2 (by intro u hu; cases hu)) hd2 rfl]
  · by_cases hT : 0 < T
    · have hc2 := set_cache_self (MemoryCache.get s k dep now).2 k v2 T hcb2 dep n2 hT
      have he2 : MemoryCache.expireOk (some (n2 + T.toNat)) n2 = true := by
        simp [MemoryCache.expireOk]
        omega
      rw [get_of_valid _ _ _ _ _ hc2 hd2 he2]
    · have hc2 := set_cache_self_nottl (MemoryCache.get s k dep now).2 k v2 (some T)
        hcb2 dep n2 (by intro u hu; cases hu; omega)
      rw [get_of_valid _ _ _ _ _ hc2 hd2 rfl]

/-- Witness for the amended C3: a key written with snapshot `[1]` and a
pending timer, read with snapshot `[2]`, then rewritten with `[2]`. -/
theorem dep_invalidation_on_serialization_diff_witness :
    ((MemoryCache.set emptyCache "k3w" (.jstr "v") (some 100) true
        (.jarr [.jnum 1]) 0).dependencies "k3w" = some (.jarr [.jnum 1])) ∧
    (jsTruthy (.jarr [.jnum 1]) = true) ∧
    (stringifyVal (.jarr [.jnum 1]) ≠ stringifyVal (.jarr [.jnum 2])) ∧
    ((MemoryCache.get (MemoryCache.set emptyCache "k3w" (.jstr "v") (some 100) true
        (.jarr [.jnum 1]) 0) "k3w" (.jarr [.jnum 2]) 5).1 = .jnull ∧
     (MemoryCache.get (MemoryCache.set emptyCache "k3w" (.jstr "v") (some 100) true
        (.jarr [.jnum 1]) 0) "k3w" (.jarr [.jnum 2]) 5).2.cache "k3w" = none ∧
     (MemoryCache.get (MemoryCache.set emptyCache "k3w" (.jstr "v") (some 100) true
        (.jarr [.jnum 1]) 0) "k3w" (.jarr [.jnum 2]) 5).2.dependencies "k3w" =
       some (.jarr [.jnum 2]) ∧
     (∀ e : Entry,
        (MemoryCache.set emptyCache "k3w" (.jstr "v") (some 100) true
          (.jarr [.jnum 1]) 0).cache "k3w" = some e →
        ∀ tid : Nat, e.timer = some tid →
        ∀ tmr ∈ (MemoryCache.get (MemoryCache.set emptyCache "k3w" (.jstr "v") (some 100)
            true (.jarr [.jnum 1]) 0) "k3w" (.jarr [.jnum 2]) 5).2.timers,
          tmr.id ≠ tid) ∧
     (∀ (timeoutMs2 : Option Int) (hcb2 : Bool) (n2 : Nat),
        (MemoryCache.get
           (MemoryCache.set
             (MemoryCache.get (MemoryCache.set emptyCache "k3w" (.jstr "v") (some 100)
               true (.jarr [.jnum 1]) 0) "k3w" (.jarr [.jnum 2]) 5).2
             "k3w" (.jstr "v2") timeoutMs2 hcb2 (.jarr [.jnum 2]) n2)
           "k3w" (.jarr [.jnum 2]) n2).1 = .jstr "v2")) :=
  ⟨by rfl, by rfl, by decide,
   dep_invalidation_on_serialization_diff
     (MemoryCache.set emptyCache "k3w" (.jstr "v") (some 100) true (.jarr [.jnum 1]) 0)
     "k3w" (.jarr [.jnum 1]) (.jarr [.jnum 2]) (.jstr "v2") 5
     (by rfl) (by rfl) (by decide)⟩

end CacheExpress

namespace CacheExpress

theorem stringifyElems_funcs (ids : List Nat) :
    stringifyElems (ids.map .jfunc) = ids.map (fun _ => "null") := by
  induction ids with
  | nil => rfl
  | cons i is ih => simp [stringifyElems, stringifyVal, ih]

/-- C4 counterexample: two dependency snapshots containing
non-serializable values — the distinct function objects `f` and `g` —
are treated as EQUAL by the comparison (`JSON.stringify` turns both into
`"[null]"`), so `get` serves the cached value as a hit instead of
conservatively triggering invalidation, refuting the claim that
non-serializable differences are treated as inequality. -/
theorem nonserializable_diff_counterexample :
    deepValueEq (.jarr [.jfunc 3]) (.jarr [.jfunc 4]) = false ∧
    (MemoryCache.dependenciesChanged (MemoryCache.set emptyCache "k4" (.jstr "w") none
        false (.jarr [.jfunc 3]) 0) "k4" (.jarr [.jfunc 4])).1 = false ∧
    (MemoryCache.get (MemoryCache.set emptyCache "k4" (.jstr "w") none false
        (.jarr [.jfunc 3]) 0) "k4" (.jarr [.jfunc 4]) 9).1 = .jstr "w" := by
  exact ⟨by rfl, by rfl, by rfl⟩

/-- C4 (amended): no cache operation fails on well-formed input (every
operation of the embedding is a total function), and the dependency
comparison serializes non-serializable members of a snapshot as `null`,
so two snapshots of non-serializable values of the same length always
compare EQUAL: the comparison reports no change and a valid entry is
served as a hit, rather than the difference triggering invalidation. -/
theorem nonserializable_diff_treated_equal (s : MemoryCache) (k : String)
    (ids ids2 : List Nat) (e : Entry) (now : Nat)
    (hlen : ids.length = ids2.length)
    (hdep : s.dependencies k = some (.jarr (ids.map .jfunc)))
    (hc : s.cache k = some e)
    (he : MemoryCache.expireOk e.expireTime now = true) :
    stringifyVal (.jarr (ids.map .jfunc)) = stringifyVal (.jarr (ids2.map .jfunc)) ∧
    MemoryCache.dependenciesChanged s k (.jarr (ids2.map .jfunc)) = (false, s) ∧
    MemoryCache.get s k (.jarr (ids2.map .jfunc)) now = (e.value, s) := by
  have hstr : stringifyVal (.jarr (ids.map .jfunc)) =
      stringifyVal (.jarr (ids2.map .jfunc)) := by
    simp [stringifyVal, stringifyElems_funcs, List.map_const, hlen]
  have hdc : MemoryCache.dependenciesChanged s k (.jarr (ids2.map .jfunc)) = (false, s) := by
    simp [MemoryCache.dependenciesChanged, hdep, jsTruthy, hstr]
  exact ⟨hstr, hdc, get_of_valid s k _ now e hc hdc he⟩

/-- Witness for the amended C4: stored snapshot `[f3]`, supplied `[f4]`. -/
theorem nonserializable_diff_treated_equal_witness :
    ([3].length = [(4 : Nat)].length) ∧
    ((MemoryCache.set emptyCache "k4w" (.jstr "w") none false
        (.jarr [.jfunc 3]) 0).dependencies "k4w" =
      some (.jarr (([3] : List Nat).map .jfunc))) ∧
    ((MemoryCache.set emptyCache "k4w" (.jstr "w") none false
        (.jarr [.jfunc 3]) 0).cache "k4w" =
      some (⟨.jstr "w", none, .jarr [.jfunc 3], none, none⟩ : Entry)) ∧
    (MemoryCache.expireOk (⟨.jstr "w", none, .jarr [.jfunc 3], none, none⟩ : Entry).expireTime
      9 = true) ∧
    (stringifyVal (.jarr (([3] : List Nat).map .jfunc)) =
       stringifyVal (.jarr (([4] : List Nat).map .jfunc)) ∧
     MemoryCache.dependenciesChanged (MemoryCache.set emptyCache "k4w" (.jstr "w") none
         false (.jarr [.jfunc 3]) 0) "k4w" (.jarr (([4] : List Nat).map .jfunc)) =
       (false, MemoryCache.set emptyCache "k4w" (.jstr "w") none false
         (.jarr [.jfunc 3]) 0) ∧
     MemoryCache.get (MemoryCache.set emptyCache "k4w" (.jstr "w") none false
         (.jarr [.jfunc 3]) 0) "k4w" (.jarr (([4] : List Nat).map .jfunc)) 9 =
       ((⟨.jstr "w", none, .jarr [.jfunc 3], none, none⟩ : Entry).value,
        MemoryCache.set emptyCache "k4w" (.jstr "w") none false (.jarr [.jfunc 3]) 0)) :=
  ⟨by rfl, by rfl, by rfl, by rfl,
   nonserializable_diff_treated_equal
     (MemoryCache.set emptyCache "k4w" (.jstr "w") none false (.jarr [.jfunc 3]) 0)
     "k4w" [3] [4] (⟨.jstr "w", none, .jarr [.jfunc 3], none, none⟩ : Entry) 9
     (by rfl) (by rfl) (by rfl) (by rfl)⟩

end CacheExpress

namespace CacheExpress

/-- C7 counterexample: an entry is written with a TTL and a callback at
time 0, then removed by an overwrite (a no-TTL `set` of a new value) at
time 3 — so the original entry was removed between scheduling and
firing. When the scheduled timer nevertheless fires, the callback IS
invoked (with the new entry's value) and the new entry IS deleted,
refuting the claim that after removal-by-overwrite the callback is not
invoked and no deletion occurs. -/
theorem timer_fire_after_overwrite_counterexample :
    (({ id := 0, key := "k7", fireAt := 50 } : Timer) ∈
       (MemoryCache.set (MemoryCache.set emptyCache "k7" (.jstr "a") (some 50) true
         (.jarr []) 0) "k7" (.jstr "b") none false (.jarr []) 3).timers) ∧
    ((MemoryCache.fireTimer (MemoryCache.set (MemoryCache.set emptyCache "k7" (.jstr "a")
        (some 50) true (.jarr []) 0) "k7" (.jstr "b") none false (.jarr []) 3)
        { id := 0, key := "k7", fireAt := 50 }).1 = some (0, "k7", .jstr "b")) ∧
    ((MemoryCache.fireTimer (MemoryCache.set (MemoryCache.set emptyCache "k7" (.jstr "a")
        (some 50) true (.jarr []) 0) "k7" (.jstr "b") none false (.jarr []) 3)
        { id := 0, key := "k7", fireAt := 50 }).2.cache "k7" = none) := by
  refine ⟨?_, by rfl, by rfl⟩
  simp [MemoryCache.set, emptyCache, updKey]

/-- C7 (amended): when a scheduled timer fires, the callback body checks
whether an entry currently exists for the key. If one exists — whether
the original entry or a replacement installed by a later overwrite — the
callback is invoked exactly once with the key and that entry's current
value, the entry is deleted, and the consumed timer cannot fire again;
if the key has no entry at fire time (explicit removal or
dependency-triggered deletion, with no intervening write), the callback
is not invoked and no deletion occurs. -/
theorem timer_fire_existence_check (s : MemoryCache) (tmr : Timer) :
    (∀ e : Entry, s.cache tmr.key = some e →
       (MemoryCache.fireTimer s tmr).1 = some (tmr.id, tmr.key, e.value) ∧
       (MemoryCache.fireTimer s tmr).2.cache tmr.key = none ∧
       ∀ tmr2 ∈ (MemoryCache.fireTimer s tmr).2.timers, tmr2.id ≠ tmr.id) ∧
    (s.cache tmr.key = none →
       (MemoryCache.fireTimer s tmr).1 = none ∧
       (MemoryCache.fireTimer s tmr).2.cache = s.cache) := by
  constructor
  · intro e hc
    refine ⟨?_, ?_, ?_⟩
    · simp [MemoryCache.fireTimer, hc]
    · simp [MemoryCache.fireTimer, hc, updKey]
    · intro tmr2 hmem
      simp only [MemoryCache.fireTimer, hc, MemoryCache.clearTimer] at hmem
      simp at hmem
      exact hmem.2
  · intro hc
    constructor
    · simp [MemoryCache.fireTimer, hc]
    · simp [MemoryCache.fireTimer, hc, MemoryCache.clearTimer]

/-- Witness for the amended C7: a state holding an entry for `"k7w"`
with a pending timer, and the same state after removal. -/
theorem timer_fire_existence_check_witness :
    ((∀ e : Entry,
        (MemoryCache.set emptyCache "k7w" (.jstr "a") (some 50) true
          (.jarr []) 0).cache "k7w" = some e →
        (MemoryCache.fireTimer (MemoryCache.set emptyCache "k7w" (.jstr "a") (some 50)
            true (.jarr []) 0) { id := 0, key := "k7w", fireAt := 50 }).1 =
          some (0, "k7w", e.value) ∧
        (MemoryCache.fireTimer (MemoryCache.set emptyCache "k7w" (.jstr "a") (some 50)
            true (.jarr []) 0) { id := 0, key := "k7w", fireAt := 50 }).2.cache "k7w" =
          none ∧
        ∀ tmr2 ∈ (MemoryCache.fireTimer (MemoryCache.set emptyCache "k7w" (.jstr "a")
            (some 50) true (.jarr []) 0)
            { id := 0, key := "k7w", fireAt := 50 }).2.timers, tmr2.id ≠ 0) ∧
     ((MemoryCache.set emptyCache "k7w" (.jstr "a") (some 50) true
         (.jarr []) 0).cache "k7w" = none →
       (MemoryCache.fireTimer (MemoryCache.set emptyCache "k7w" (.jstr "a") (some 50)
           true (.jarr []) 0) { id := 0, key := "k7w", fireAt := 50 }).1 = none ∧
       (MemoryCache.fireTimer (MemoryCache.set emptyCache "k7w" (.jstr "a") (some 50)
           true (.jarr []) 0) { id := 0, key := "k7w", fireAt := 50 }).2.cache =
         (MemoryCache.set emptyCache "k7w" (.jstr "a") (some 50) true
           (.jarr []) 0).cache)) ∧
    ((MemoryCache.remove (MemoryCache.set emptyCache "k7w" (.jstr "a") (some 50) true
        (.jarr []) 0) "k7w").cache "k7w" = none →
      (MemoryCache.fireTimer (MemoryCache.remove (MemoryCache.set emptyCache "k7w"
          (.jstr "a") (some 50) true (.jarr []) 0) "k7w")
          { id := 0, key := "k7w", fireAt := 50 }).1 = none ∧
      (MemoryCache.fireTimer (MemoryCache.remove (MemoryCache.set emptyCache "k7w"
          (.jstr "a") (some 50) true (.jarr []) 0) "k7w")
          { id := 0, key := "k7w", fireAt := 50 }).2.cache =
        (MemoryCache.remove (MemoryCache.set emptyCache "k7w" (.jstr "a") (some 50) true
          (.jarr []) 0) "k7w").cache) :=
  ⟨timer_fire_existence_check
     (MemoryCache.set emptyCache "k7w" (.jstr "a") (some 50) true (.jarr []) 0)
     { id := 0, key := "k7w", fireAt := 50 },
   (timer_fire_existence_check
     (MemoryCache.remove (MemoryCache.set emptyCache "k7w" (.jstr "a") (some 50) true
       (.jarr []) 0) "k7w")
     { id := 0, key := "k7w", fireAt := 50 }).2⟩

/-- C1: the stale-timer hazard at a concrete input. `set("k1", "v1",
ttl = 100, callback)` at time 0 schedules timer 0; `set("k1", "v2")`
(no TTL) at time 5 replaces the entry but does NOT cancel timer 0, which
is still pending after the overwrite; when timer 0 fires, its callback
finds the new entry, is invoked against it — `callback("k1", "v2")` —
and deletes the new, timerless entry. This exhibits the divergence from
the claim that an overwrite cancels the prior entry's pending timer. -/
theorem overwrite_leaves_stale_timer :
    (({ id := 0, key := "k1", fireAt := 100 } : Timer) ∈
       (MemoryCache.set (MemoryCache.set emptyCache "k1" (.jstr "v1") (some 100) true
         (.jarr [.jnum 1]) 0) "k1" (.jstr "v2") none false (.jarr [.jnum 1]) 5).timers) ∧
    (((MemoryCache.set (MemoryCache.set emptyCache "k1" (.jstr "v1") (some 100) true
        (.jarr [.jnum 1]) 0) "k1" (.jstr "v2") none false
        (.jarr [.jnum 1]) 5).cache "k1").isSome = true) ∧
    ((MemoryCache.fireTimer (MemoryCache.set (MemoryCache.set emptyCache "k1" (.jstr "v1")
        (some 100) true (.jarr [.jnum 1]) 0) "k1" (.jstr "v2") none false
        (.jarr [.jnum 1]) 5) { id := 0, key := "k1", fireAt := 100 }).1 =
      some (0, "k1", .jstr "v2")) ∧
    ((MemoryCache.fireTimer (MemoryCache.set (MemoryCache.set emptyCache "k1" (.jstr "v1")
        (some 100) true (.jarr [.jnum 1]) 0) "k1" (.jstr "v2") none false
        (.jarr [.jnum 1]) 5) { id := 0, key := "k1", fireAt := 100 }).2.cache "k1" =
      none) := by
  refine ⟨?_, by rfl, by rfl, by rfl⟩
  simp [MemoryCache.set, emptyCache, updKey]

end CacheExpress
